import Mathlib

set_option linter.unusedVariables false

/-!
Shallow embedding of the ANN index wrapper `IndexAnnoy`
(src/core/src/index/knowhere/knowhere/index/vector_index/IndexAnnoy.cpp) and of
`DescribeTableRequest::OnExecute`
(src/core/src/server/delivery/request/DescribeTableRequest.cpp).

Modelling conventions: C++ exceptions (KNOWHERE_THROW_MSG, std::out_of_range)
become explicit error values; mutation of `this` becomes explicit state
passing (a method returns its result together with the post-call state when
it mutates); byte buffers are lists of `UInt8`; reads of uninitialized C++
memory are modelled by explicit parameters supplying the junk bytes. The
AnnoyIndex template class itself is thirdparty code that is not part of the
given sources; the pieces of it the wrapper observes are modelled from the
spec and carry doc comments saying so.
-/

namespace Knowhere

/-- A byte buffer. -/
abbrev Bytes := List UInt8

/-- ASCII bytes of the C string constant Metric::L2, i.e. "L2". -/
def metricL2 : Bytes := [76, 50]

/-- ASCII bytes of the C string constant Metric::IP, i.e. "IP". -/
def metricIP : Bytes := [73, 80]

/-- ASCII bytes of the unrecognized metric name "cosine". -/
def metricCosine : Bytes := [99, 111, 115, 105, 110, 101]

/-- Little-endian byte layout of the low 8 bytes of a natural number, the
layout memcpy produces for a `uint64_t` value. -/
def encodeUInt64LE (n : Nat) : Bytes :=
  (List.range 8).map (fun i => UInt8.ofNat ((n >>> (8 * i)) % 256))

/-- Little-endian byte layout of the low 4 bytes of a natural number. -/
def encodeUInt32LE (n : Nat) : Bytes :=
  (List.range 4).map (fun i => UInt8.ofNat ((n >>> (8 * i)) % 256))

/-- Little-endian decoding of a byte buffer into a natural number. -/
def decodeUInt64LE (bs : Bytes) : Nat :=
  bs.foldr (fun b acc => b.toNat + 256 * acc) 0

/-- Vector components: the float32 payloads are modelled as integers, since no
claim settled here depends on floating-point rounding behaviour. -/
abbrev Vec := List Int

/-- The metric template parameter of the AnnoyIndex instantiations chosen by
the wrapper (Euclidean for "L2", DotProduct for "IP"). -/
inductive AnnoyMetric
  | euclidean
  | dotProduct
deriving DecidableEq

/-- Modelled from the spec: the AnnoyIndex object (thirdparty library code
that is not among the given sources). Following section 3 of the spec it owns
the dim-fixed vector store of id+vector rows and the randomized trees; only
the fields the wrapper observes are modelled, with `nTrees` recording the
argument passed to `build` (the tree shapes themselves are observable by no
claim, since the settled query model uses an exhaustive budget). -/
structure AnnoyIndex where
  dim : Nat
  metric : AnnoyMetric
  items : List (Int × Vec)
  nTrees : Int
deriving DecidableEq

/-- Modelled from the spec (section 4.3): the flat byte region returned by
`get_index`, whose length `get_index_length` reports: item count, then
per-item id+vector rows (ids as 8-byte two-complement words, components as
4-byte words). The tree-node section is elided: the region is opaque to the
wrapper, which only copies it, and no claim inspects it. -/
def AnnoyIndex.get_index (a : AnnoyIndex) : Bytes :=
  encodeUInt64LE a.items.length ++
    (a.items.map (fun it =>
      encodeUInt64LE ((it.1 % (2 ^ 64 : Int)).toNat) ++
        (it.2.map (fun c => encodeUInt32LE ((c % (2 ^ 32 : Int)).toNat))).flatten)).flatten

/-- Modelled from the spec (section 4.3): decode `count` item rows of
`8 + 4 * dim` bytes each, failing on truncation or trailing garbage. -/
def decodeItems (dim : Nat) : Nat → Bytes → Option (List (Int × Vec))
  | 0, bs => if bs.isEmpty then some [] else none
  | count + 1, bs =>
      if 8 + 4 * dim ≤ bs.length then
        let idWord := decodeUInt64LE (bs.take 8)
        let idInt : Int :=
          if idWord < 2 ^ 63 then (idWord : Int) else (idWord : Int) - 2 ^ 64
        let v : Vec := (List.range dim).map
          (fun i => (decodeUInt64LE (((bs.drop 8).drop (4 * i)).take 4) : Int))
        match decodeItems dim count (bs.drop (8 + 4 * dim)) with
        | some rest => some ((idInt, v) :: rest)
        | none => none
      else none

/-- Modelled from the spec: `load_index` parses the region written by
`get_index`, reconstructing the item rows, and reports failure (returning
false together with an error message) on malformed input. -/
def AnnoyIndex.load_index (dim : Nat) (data : Bytes) : Option (List (Int × Vec)) :=
  if 8 ≤ data.length then decodeItems dim (decodeUInt64LE (data.take 8)) (data.drop 8)
  else none

/-- The `IndexAnnoy` wrapper object: `index_` (a null shared pointer until
built or loaded), `metric_type_` (a std::string whose exact byte contents and
length matter — embedded NUL bytes participate in std::string comparison),
and the cached `index_size_`, initialised to the -1 sentinel that
`IndexSize` tests. -/
structure IndexAnnoy where
  index_ : Option AnnoyIndex
  metric_type_ : Bytes
  index_size_ : Int
deriving DecidableEq

/-- A freshly constructed `IndexAnnoy` object. -/
def IndexAnnoy.fresh : IndexAnnoy :=
  { index_ := none, metric_type_ := [], index_size_ := -1 }

/-- The failures the embedded methods can raise; each constructor is one
throw site of the source. KNOWHERE_THROW_MSG sites: "index not initialize
or trained" / "index not initialize" (`notInitialized`), "metric not
supported " + metric_type_ (`unsupportedMetric`, carrying the exact bytes of
`metric_type_`), and the `load_index` failure path; `nameNotFound` is the
std::out_of_range raised by `BinarySet::GetByName` (map::at) when a named
section is absent. -/
inductive KErr
  | notInitialized
  | unsupportedMetric (metricBytes : Bytes)
  | loadIndexFailed
  | nameNotFound (sectionName : String)
deriving DecidableEq

/-- A `BinarySet`: named byte sections, built by `Append` and read by
`GetByName`; the declared size of each section equals its buffer length. -/
structure BinarySet where
  entries : List (String × Bytes)
deriving DecidableEq

/-- `BinarySet::GetByName`: the section stored under a name, if present. -/
def BinarySet.getByName (b : BinarySet) (n : String) : Option Bytes :=
  (b.entries.find? (fun e => e.1 == n)).map (fun e => e.2)

/-- `IndexAnnoy::Count` (IndexAnnoy.cpp lines 141-148): throws if `index_` is
null, else returns `get_n_items`, the number of stored items. -/
def IndexAnnoy.Count (s : IndexAnnoy) : Except KErr Int :=
  match s.index_ with
  | none => Except.error KErr.notInitialized
  | some a => Except.ok (a.items.length : Int)

/-- `IndexAnnoy::Dim` (IndexAnnoy.cpp lines 150-157): throws if `index_` is
null, else returns `get_dim`. -/
def IndexAnnoy.Dim (s : IndexAnnoy) : Except KErr Int :=
  match s.index_ with
  | none => Except.error KErr.notInitialized
  | some a => Except.ok (a.dim : Int)

/-- `IndexAnnoy::Serialize` (IndexAnnoy.cpp lines 32-55): throws if `index_`
is null; else emits three sections: exactly `metric_type_.length()` bytes of
`metric_type_`, the 8 little-endian bytes of `Dim()` (a uint64), and the
`get_index` region of length `get_index_length`. The `config` argument is
unused by the source and omitted. -/
def IndexAnnoy.Serialize (s : IndexAnnoy) : Except KErr BinarySet :=
  match s.index_ with
  | none => Except.error KErr.notInitialized
  | some a =>
      Except.ok
        { entries := [("annoy_metric_type", s.metric_type_),
                      ("annoy_dim", encodeUInt64LE a.dim),
                      ("annoy_index_data", a.get_index)] }

/-- The fields the GETTENSORWITHIDS macro extracts from a build dataset: row
count, dimension, the ids array and the row-major vector buffer. -/
structure Dataset where
  rows : Nat
  dim : Nat
  ids : List Int
  tensor : List Int
deriving DecidableEq

/-- The config fields `BuildAll` reads: `config[Metric::TYPE]` (a string,
given as its bytes) and `config[IndexParams::n_trees]`. -/
structure BuildCfg where
  metric_type : Bytes
  n_trees : Int
deriving DecidableEq

/-- `IndexAnnoy::BuildAll` (IndexAnnoy.cpp lines 84-107): a no-op when
`index_` is already set; else it assigns `metric_type_` from the config,
dispatches the metric ("L2" or "IP"; anything else throws, with
`metric_type_` already mutated but `index_` still null), then adds row i =
(p_ids[i], p_data + dim * i) for each i < rows and builds `n_trees` trees.
Returns the post-call state of `this` together with the raised error, if
any. -/
def IndexAnnoy.BuildAll (s : IndexAnnoy) (ds : Dataset) (cfg : BuildCfg) :
    IndexAnnoy × Option KErr :=
  if s.index_.isSome then (s, none)
  else
    let s1 := { s with metric_type_ := cfg.metric_type }
    if cfg.metric_type = metricL2 ∨ cfg.metric_type = metricIP then
      let metric := if cfg.metric_type = metricL2 then
        AnnoyMetric.euclidean else AnnoyMetric.dotProduct
      let items := (List.range ds.rows).map
        (fun i => (ds.ids.getD i 0, (ds.tensor.drop (ds.dim * i)).take ds.dim))
      let built : AnnoyIndex :=
        { dim := ds.dim, metric := metric, items := items, nTrees := cfg.n_trees }
      ({ s1 with index_ := some built }, none)
    else (s1, some (KErr.unsupportedMetric cfg.metric_type))

/-- `std::string::resize(n)` on the byte contents of a string: truncate, or
pad with NUL bytes. -/
def stringResize (s : Bytes) (n : Nat) : Bytes :=
  if n ≤ s.length then s.take n else s ++ List.replicate (n - s.length) 0

/-- The outcome of `IndexAnnoy::Load`: the state of `this` after the call
(its mutations persist even when the call throws), the raised error if any,
and two observations of the dim memcpy at IndexAnnoy.cpp lines 64-65:
`dimOverrun` is the number of bytes that `memcpy(&dim, data, size)` writes
past the end of the 8-byte local `dim` (nonzero means an out-of-bounds
write), and `dimRead` is the value the local `dim` holds afterwards (`none`
when the call throws before reaching that memcpy). -/
structure LoadResult where
  state : IndexAnnoy
  err : Option KErr
  dimOverrun : Nat
  dimRead : Option Nat
deriving DecidableEq

/-- `IndexAnnoy::Load` (IndexAnnoy.cpp lines 57-82), called on the object
`s`. In source order: fetch "annoy_metric_type"; `metric_type_.resize(size
+ 1)` and then memcpy `size` bytes into it, so `metric_type_` always has
length `size + 1` — its final byte is whatever `resize` put there, a NUL
when the previous string was shorter than that; fetch "annoy_dim" and memcpy
its declared size into the 8-byte local `dim` (when the section is shorter
than 8 bytes the tail of `dim` keeps uninitialized stack bytes, supplied
here by `uninit`; when longer, the copy overruns `dim`); dispatch on
`metric_type_ == "L2"` / `== "IP"` — std::string comparison, in which the
length and every byte participate — or throw "metric not supported"; fetch
"annoy_index_data", construct the AnnoyIndex and run `load_index` on it,
throwing its error message on failure (with `index_` already assigned). -/
def IndexAnnoy.Load (s : IndexAnnoy) (b : BinarySet) (uninit : Bytes) : LoadResult :=
  match b.getByName "annoy_metric_type" with
  | none => ⟨s, some (KErr.nameNotFound "annoy_metric_type"), 0, none⟩
  | some mt =>
      let mtNew := mt ++ (stringResize s.metric_type_ (mt.length + 1)).drop mt.length
      let s1 := { s with metric_type_ := mtNew }
      match b.getByName "annoy_dim" with
      | none => ⟨s1, some (KErr.nameNotFound "annoy_dim"), 0, none⟩
      | some dimSec =>
          let overrun := dimSec.length - 8
          let dim := decodeUInt64LE (dimSec.take 8 ++ uninit.take (8 - dimSec.length))
          if mtNew = metricL2 ∨ mtNew = metricIP then
            let metric := if mtNew = metricL2 then
              AnnoyMetric.euclidean else AnnoyMetric.dotProduct
            let constructed : AnnoyIndex :=
              { dim := dim, metric := metric, items := [], nTrees := 0 }
            let s2 := { s1 with index_ := some constructed }
            match b.getByName "annoy_index_data" with
            | none => ⟨s2, some (KErr.nameNotFound "annoy_index_data"), overrun, some dim⟩
            | some idxData =>
                match AnnoyIndex.load_index dim idxData with
                | none => ⟨s2, some KErr.loadIndexFailed, overrun, some dim⟩
                | some items =>
                    let loaded : AnnoyIndex :=
                      { dim := dim, metric := metric, items := items, nTrees := 0 }
                    ⟨{ s1 with index_ := some loaded }, none, overrun, some dim⟩
          else ⟨s1, some (KErr.unsupportedMetric mtNew), overrun, some dim⟩

/-- Modelled from the spec (section 4.1): Euclidean distance is the sum of
squared component differences. -/
def euclideanDist (a b : Vec) : Int :=
  ((a.zip b).map (fun p => (p.1 - p.2) ^ 2)).sum

/-- Modelled from the spec (section 4.1): InnerProduct ranks by the negated
dot product, lower is better. -/
def dotProductDist (a b : Vec) : Int :=
  -(((a.zip b).map (fun p => p.1 * p.2)).sum)

/-- The distance function associated with a metric variant. -/
def AnnoyMetric.dist : AnnoyMetric → Vec → Vec → Int
  | AnnoyMetric.euclidean => euclideanDist
  | AnnoyMetric.dotProduct => dotProductDist

/-- Insert an (id, distance) pair into a list sorted by ascending distance,
ties broken by smaller id. -/
def insertByDist (x : Int × Int) : List (Int × Int) → List (Int × Int)
  | [] => [x]
  | y :: ys =>
      if x.2 < y.2 ∨ (x.2 = y.2 ∧ x.1 ≤ y.1) then x :: y :: ys
      else y :: insertByDist x ys

/-- Sort (id, distance) pairs by ascending distance, ties by smaller id. -/
def sortByDist (l : List (Int × Int)) : List (Int × Int) :=
  l.foldr insertByDist []

/-- Modelled from the spec (section 4.4): `get_nns_by_vector` of the Annoy
library (thirdparty code not among the given sources), with the `search_k`
budget treated as exhaustive — every claim settled against this model
queries with an unbounded budget, under which the multi-tree traversal
reaches every leaf, so the candidate set is the whole item store. Blacklisted
ids are filtered out, exact metric distances are computed, and the k
smallest (ties broken by smaller id) are returned; per the spec, if fewer
than k valid candidates remain it returns only that many: the result
vectors receive no padding. -/
def AnnoyIndex.get_nns_by_vector (a : AnnoyIndex) (q : Vec) (k : Nat)
    (search_k : Int) (blacklist : List Int) : List Int × List Int :=
  let survivors := a.items.filter (fun it => !(blacklist.contains it.1))
  let scored := survivors.map (fun it => (it.1, a.metric.dist q it.2))
  let top := (sortByDist scored).take k
  (top.map (fun p => p.1), top.map (fun p => p.2))

/-- The config fields `Query` reads: `config[meta::TOPK]` and
`config[IndexParams::search_k]`. -/
structure QueryCfg where
  topk : Nat
  search_k : Int
deriving DecidableEq

/-- The memcpy at IndexAnnoy.cpp lines 131-132: `memcpy(dst, result.data(),
k * sizeof ...)` where the vector `result` holds `result.size()` elements
but (thanks to `reserve(k)`) capacity for `k`: positions at or past
`result.size()` read uninitialized heap memory, supplied here by `junk`. -/
def copyK (src : List Int) (k : Nat) (junk : Nat → Int) : List Int :=
  (List.range k).map (fun j => src.getD j (junk j))

/-- `IndexAnnoy::Query` (IndexAnnoy.cpp lines 109-139): throws if `index_`
is null; else for each query row it calls `get_nns_by_vector` and memcpys
exactly `k` ids and `k` distances from the result vectors into the output
buffers — also when those vectors hold fewer than `k` entries, in which case
the tail of the row block is whatever the uninitialized reads return
(`junkId` and `junkDist`, indexed by row then slot). The output is the pair
of flat `rows * k` buffers handed back through the result dataset. -/
def IndexAnnoy.Query (s : IndexAnnoy) (queries : List Vec) (cfg : QueryCfg)
    (blacklist : List Int) (junkId junkDist : Nat → Nat → Int) :
    Except KErr (List Int × List Int) :=
  match s.index_ with
  | none => Except.error KErr.notInitialized
  | some a =>
      let rows := queries.enum.map (fun iq =>
        let r := a.get_nns_by_vector iq.2 cfg.topk cfg.search_k blacklist
        (copyK r.1 cfg.topk (junkId iq.1), copyK r.2 cfg.topk (junkDist iq.1)))
      Except.ok ((rows.map (fun p => p.1)).flatten, (rows.map (fun p => p.2)).flatten)

/-- `IndexAnnoy::IndexSize` (IndexAnnoy.cpp lines 159-166): returns the
cached `index_size_` whenever it differs from the -1 sentinel; otherwise it
computes `Dim() * Count() * sizeof(float)` — `Dim` throwing NotInitialized
when `index_` is null, in which case nothing is cached — and stores the
product. Returns the result together with the state of `this`. -/
def IndexAnnoy.IndexSize (s : IndexAnnoy) : Except KErr Int × IndexAnnoy :=
  if s.index_size_ = -1 then
    match s.index_ with
    | none => (Except.error KErr.notInitialized, s)
    | some a =>
        let v : Int := (a.dim : Int) * (a.items.length : Int) * 4
        (Except.ok v, { s with index_size_ := v })
  else (Except.ok s.index_size_, s)

/-- A one-item build dataset: id 5, vector (1, 2), dimension 2. -/
def ds1 : Dataset := { rows := 1, dim := 2, ids := [5], tensor := [1, 2] }

/-- A different one-item dataset, for the idempotence claim. -/
def ds2 : Dataset := { rows := 1, dim := 2, ids := [77], tensor := [3, 4] }

/-- A build config choosing metric "L2" with 8 trees. -/
def cfgL2 : BuildCfg := { metric_type := metricL2, n_trees := 8 }

/-- The index obtained by building `ds1` under metric "L2" on a fresh
object. -/
def built1 : IndexAnnoy := (IndexAnnoy.fresh.BuildAll ds1 cfgL2).1

/-- Eight zero bytes standing for the uninitialized stack tail of the
8-byte `dim` local in `Load`. -/
def uninitZeros : Bytes := List.replicate 8 0

/-- The blob `Serialize` emits for `built1`. -/
def built1Blob : BinarySet :=
  match IndexAnnoy.Serialize built1 with
  | Except.ok b => b
  | Except.error _ => { entries := [] }

/-- The AnnoyIndex object held by `built1`. -/
def built1Core : AnnoyIndex :=
  { dim := 2, metric := AnnoyMetric.euclidean, items := [(5, [1, 2])], nTrees := 8 }

/-- A blob whose metric-name section holds exactly the ASCII bytes "L2". -/
def l2OnlyBlob : BinarySet :=
  { entries := [("annoy_metric_type", metricL2),
                ("annoy_dim", encodeUInt64LE 2),
                ("annoy_index_data", [])] }

/-- A blob whose metric-name section holds exactly the ASCII bytes "IP". -/
def ipOnlyBlob : BinarySet :=
  { entries := [("annoy_metric_type", metricIP),
                ("annoy_dim", encodeUInt64LE 2),
                ("annoy_index_data", [])] }

/-- A blob whose "annoy_dim" section declares 16 bytes instead of 8. -/
def oversizedDimBlob : BinarySet :=
  { entries := [("annoy_metric_type", metricL2),
                ("annoy_dim", List.replicate 16 7),
                ("annoy_index_data", [])] }

/-- A truncated blob whose "annoy_dim" section holds only 4 bytes. -/
def shortDimBlob : BinarySet :=
  { entries := [("annoy_metric_type", metricL2),
                ("annoy_dim", List.replicate 4 7),
                ("annoy_index_data", [])] }

end Knowhere

namespace MilvusServer

/-- The status codes `DescribeTableRequest::OnExecute` can observe or
produce. `otherError` stands for any further non-success code an external
call may return. -/
inductive StatusCode
  | SERVER_SUCCESS
  | SERVER_INVALID_COLLECTION_NAME
  | SERVER_TABLE_NOT_EXIST
  | SERVER_INVALID_TABLE_NAME
  | SERVER_UNEXPECTED_ERROR
  | DB_NOT_FOUND
  | otherError
deriving DecidableEq

/-- A `Status` value; messages are elided, only the code is observable to
the claim. -/
structure Status where
  code : StatusCode
deriving DecidableEq

/-- `Status::ok()`: the code is the success code. -/
def Status.isOk (s : Status) : Bool := s.code == StatusCode.SERVER_SUCCESS

/-- The output argument `schema_` of the request (server-side
`CollectionSchema`): exactly the four fields `OnExecute` assigns. -/
structure CollectionSchema where
  collection_name_ : String
  dimension_ : Int
  index_file_size_ : Int
  metric_type_ : Int
deriving DecidableEq

/-- The `engine::meta::CollectionSchema` the database call fills in
(`table_schema` in the source), as observed after `DescribeTable`
returns. -/
structure MetaSchema where
  collection_id_ : String
  dimension_ : Nat
  index_file_size_ : Int
  metric_type_ : Int
  owner_table_ : String
deriving DecidableEq

/-- The environment of one `OnExecute` run: the results of the two external
calls (`ValidationUtil::ValidateCollectionName` and
`DBWrapper::DB()->DescribeTable`, the latter both a status and the filled
`table_schema`), plus the two fiu fault-injection points, which overwrite
the database status with SERVER_UNEXPECTED_ERROR and throw a
`std::exception` respectively. -/
structure Env where
  validateStatus : Status
  dbStatus : Status
  dbSchema : MetaSchema
  fiuDescribeFail : Bool
  fiuThrowStdException : Bool
deriving DecidableEq

/-- `DescribeTableRequest::OnExecute` (DescribeTableRequest.cpp lines
35-76), as a function of the environment and of the incoming `schema_`
output argument, returning the `Status` and the final `schema_`. Source
order inside the try block: validate the collection name and return its
status if not ok; call `DescribeTable` (the two fiu points may overwrite the
status and then throw — the throw is caught by the catch clause, which
returns SERVER_UNEXPECTED_ERROR); on a non-ok status return
SERVER_TABLE_NOT_EXIST when the code is DB_NOT_FOUND and the status itself
otherwise; on an ok status but a nonempty `owner_table_` return
SERVER_INVALID_TABLE_NAME; only then assign the four `schema_` fields from
`table_schema` and return OK. -/
def OnExecute (env : Env) (schema : CollectionSchema) : Status × CollectionSchema :=
  if !env.validateStatus.isOk then (env.validateStatus, schema)
  else
    let status := if env.fiuDescribeFail then
      { code := StatusCode.SERVER_UNEXPECTED_ERROR } else env.dbStatus
    if env.fiuThrowStdException then
      ({ code := StatusCode.SERVER_UNEXPECTED_ERROR }, schema)
    else if !status.isOk then
      if status.code = StatusCode.DB_NOT_FOUND then
        ({ code := StatusCode.SERVER_TABLE_NOT_EXIST }, schema)
      else (status, schema)
    else if env.dbSchema.owner_table_ ≠ "" then
      ({ code := StatusCode.SERVER_INVALID_TABLE_NAME }, schema)
    else
      ({ code := StatusCode.SERVER_SUCCESS },
       { collection_name_ := env.dbSchema.collection_id_,
         dimension_ := (env.dbSchema.dimension_ : Int),
         index_file_size_ := env.dbSchema.index_file_size_,
         metric_type_ := env.dbSchema.metric_type_ })

end MilvusServer

namespace Knowhere

/-- Claim C1. The claimed round-trip fidelity fails on the code: for the
index built from `ds1` under metric "L2", `Serialize` emits a 2-byte
"annoy_metric_type" section, and `Load` of that very blob rebuilds
`metric_type_` as a 3-byte string with a trailing NUL (the resize to
size + 1), whose std::string comparisons against "L2" and against "IP" both
fail because the lengths differ; `Load` therefore throws "metric not
supported" and leaves `index_` null, instead of reconstructing an index
that answers `Count`, `Dim` and `Query` like the original. -/
theorem c1_load_rejects_serialize_output :
    IndexAnnoy.Serialize built1 = Except.ok built1Blob ∧
    (IndexAnnoy.fresh.Load built1Blob uninitZeros).err
        = some (KErr.unsupportedMetric [76, 50, 0]) ∧
    (IndexAnnoy.fresh.Load built1Blob uninitZeros).state.index_ = none :=
  ⟨rfl, rfl, rfl⟩

/-- Claim C2. The claim fails on the code: for a blob whose metric-name
section holds exactly the ASCII bytes of the supported name "L2"
(respectively "IP"), the extra byte `Load` allocates beyond the stored
length becomes part of the `metric_type_` std::string value, so the
metric-name comparison is corrupted — both dispatch comparisons fail on
length and `Load` throws "metric not supported" carrying the 3-byte string
with a trailing NUL, instead of dispatching the matching strategy. -/
theorem c2_trailing_byte_corrupts_metric_comparison :
    (IndexAnnoy.fresh.Load l2OnlyBlob uninitZeros).err
        = some (KErr.unsupportedMetric [76, 50, 0]) ∧
    (IndexAnnoy.fresh.Load ipOnlyBlob uninitZeros).err
        = some (KErr.unsupportedMetric [73, 80, 0]) :=
  ⟨rfl, rfl⟩

/-- Claim C3. For an object whose `index_` is null, each of `Serialize`,
`Query`, `Count` and `Dim` throws NotInitialized and yields no result; once
`index_` is set, none of them throws NotInitialized. -/
theorem c3_notinitialized_gate (s : IndexAnnoy) (qs : List Vec) (cfg : QueryCfg)
    (bl : List Int) (jI jD : Nat → Nat → Int) :
    (s.index_ = none →
      s.Serialize = Except.error KErr.notInitialized ∧
      s.Query qs cfg bl jI jD = Except.error KErr.notInitialized ∧
      s.Count = Except.error KErr.notInitialized ∧
      s.Dim = Except.error KErr.notInitialized) ∧
    (s.index_ ≠ none →
      s.Serialize ≠ Except.error KErr.notInitialized ∧
      s.Query qs cfg bl jI jD ≠ Except.error KErr.notInitialized ∧
      s.Count ≠ Except.error KErr.notInitialized ∧
      s.Dim ≠ Except.error KErr.notInitialized) := by
  cases h : s.index_ with
  | none =>
      simp [IndexAnnoy.Serialize, IndexAnnoy.Query, IndexAnnoy.Count, IndexAnnoy.Dim, h]
  | some a =>
      simp [IndexAnnoy.Serialize, IndexAnnoy.Query, IndexAnnoy.Count, IndexAnnoy.Dim, h]

/-- Witness for claim C3, at the fresh (Empty) object and at `built1`. -/
theorem c3_witness :
    (IndexAnnoy.fresh.Serialize = Except.error KErr.notInitialized ∧
      IndexAnnoy.fresh.Query [] { topk := 1, search_k := 1 } []
          (fun _ _ => 0) (fun _ _ => 0) = Except.error KErr.notInitialized ∧
      IndexAnnoy.fresh.Count = Except.error KErr.notInitialized ∧
      IndexAnnoy.fresh.Dim = Except.error KErr.notInitialized) ∧
    (built1.Serialize ≠ Except.error KErr.notInitialized ∧
      built1.Query [] { topk := 1, search_k := 1 } []
          (fun _ _ => 0) (fun _ _ => 0) ≠ Except.error KErr.notInitialized ∧
      built1.Count ≠ Except.error KErr.notInitialized ∧
      built1.Dim ≠ Except.error KErr.notInitialized) :=
  ⟨(c3_notinitialized_gate IndexAnnoy.fresh [] { topk := 1, search_k := 1 } []
      (fun _ _ => 0) (fun _ _ => 0)).1 rfl,
   (c3_notinitialized_gate built1 [] { topk := 1, search_k := 1 } []
      (fun _ _ => 0) (fun _ _ => 0)).2 (by decide)⟩

/-- Claim C4. `BuildAll` on an Empty object with an unrecognized metric name
throws "metric not supported" and leaves `index_` null, so subsequent
`Count`, `Serialize` and `Query` all still throw NotInitialized. (The
`metric_type_` string member is mutated before the throw, but the index
itself stays Empty and holds no vectors.) -/
theorem c4_unsupported_metric_leaves_empty (s : IndexAnnoy) (ds : Dataset)
    (cfg : BuildCfg) (qs : List Vec) (qcfg : QueryCfg) (bl : List Int)
    (jI jD : Nat → Nat → Int) (hEmpty : s.index_ = none)
    (hL2 : cfg.metric_type ≠ metricL2) (hIP : cfg.metric_type ≠ metricIP) :
    (s.BuildAll ds cfg).2 = some (KErr.unsupportedMetric cfg.metric_type) ∧
    (s.BuildAll ds cfg).1.index_ = none ∧
    (s.BuildAll ds cfg).1.Count = Except.error KErr.notInitialized ∧
    (s.BuildAll ds cfg).1.Serialize = Except.error KErr.notInitialized ∧
    (s.BuildAll ds cfg).1.Query qs qcfg bl jI jD = Except.error KErr.notInitialized := by
  have hb : s.BuildAll ds cfg =
      ({ s with metric_type_ := cfg.metric_type },
       some (KErr.unsupportedMetric cfg.metric_type)) := by
    unfold IndexAnnoy.BuildAll
    simp [hEmpty, hL2, hIP]
  rw [hb]
  simp [IndexAnnoy.Count, IndexAnnoy.Serialize, IndexAnnoy.Query, hEmpty]

/-- Witness for claim C4: building with metric name "cosine" on a fresh
object. -/
theorem c4_witness :
    (IndexAnnoy.fresh.BuildAll ds1 { metric_type := metricCosine, n_trees := 8 }).2
        = some (KErr.unsupportedMetric metricCosine) ∧
    (IndexAnnoy.fresh.BuildAll ds1 { metric_type := metricCosine, n_trees := 8 }).1.index_
        = none ∧
    (IndexAnnoy.fresh.BuildAll ds1 { metric_type := metricCosine, n_trees := 8 }).1.Count
        = Except.error KErr.notInitialized ∧
    (IndexAnnoy.fresh.BuildAll ds1 { metric_type := metricCosine, n_trees := 8 }).1.Serialize
        = Except.error KErr.notInitialized ∧
    (IndexAnnoy.fresh.BuildAll ds1 { metric_type := metricCosine, n_trees := 8 }).1.Query
        [] { topk := 1, search_k := 1 } [] (fun _ _ => 0) (fun _ _ => 0)
        = Except.error KErr.notInitialized :=
  c4_unsupported_metric_leaves_empty IndexAnnoy.fresh ds1
    { metric_type := metricCosine, n_trees := 8 } [] { topk := 1, search_k := 1 } []
    (fun _ _ => 0) (fun _ _ => 0) rfl (by decide) (by decide)

/-- Claim C5. `BuildAll` is idempotent: on an object whose `index_` is
already set it returns immediately — no error, state (vectors, trees,
metric, cached size, and hence `Count`) unchanged, whatever dataset and
config are passed. -/
theorem c5_buildall_idempotent (s : IndexAnnoy) (ds : Dataset) (cfg : BuildCfg)
    (hBuilt : s.index_.isSome = true) :
    s.BuildAll ds cfg = (s, none) ∧ (s.BuildAll ds cfg).1.Count = s.Count := by
  have hb : s.BuildAll ds cfg = (s, none) := by
    unfold IndexAnnoy.BuildAll
    simp [hBuilt]
  exact ⟨hb, by rw [hb]⟩

/-- Witness for claim C5: rebuilding `built1` from a different dataset and
config changes nothing. -/
theorem c5_witness :
    built1.BuildAll ds2 { metric_type := metricIP, n_trees := 3 } = (built1, none) ∧
    (built1.BuildAll ds2 { metric_type := metricIP, n_trees := 3 }).1.Count = built1.Count :=
  c5_buildall_idempotent built1 ds2 { metric_type := metricIP, n_trees := 3 } rfl

/-- Claim C6. The claim fails on the code: `Load` does not validate section
sizes against declared lengths. On a blob whose "annoy_dim" section declares
16 bytes, the memcpy into the 8-byte local `dim` writes 8 bytes out of
bounds, and the call does not fail with any corrupt-index error (the error
it does raise is the unrelated "metric not supported" of the trailing-byte
bug); on a blob whose "annoy_dim" section holds only 4 bytes, the copy
silently leaves half of `dim` uninitialized — the value read depends on
stack garbage — again with no corrupt-index failure. -/
theorem c6_load_does_not_validate_sizes :
    (IndexAnnoy.fresh.Load oversizedDimBlob uninitZeros).dimOverrun = 8 ∧
    (IndexAnnoy.fresh.Load oversizedDimBlob uninitZeros).err
        = some (KErr.unsupportedMetric [76, 50, 0]) ∧
    (IndexAnnoy.fresh.Load shortDimBlob uninitZeros).dimRead
        ≠ (IndexAnnoy.fresh.Load shortDimBlob (List.replicate 8 255)).dimRead :=
  ⟨rfl, rfl, by decide⟩

/-- Claim C7. The claim fails on the code: for `built1` (one stored item)
queried with top_k = 2, `get_nns_by_vector` returns a single candidate and
the wrapper memcpys two entries anyway, so the second slot of the output
block is whatever uninitialized heap memory follows the result vectors —
here instantiated to 9/7 and to 11/13 — not the claimed sentinel of id -1
and distance +infinity. -/
theorem c7_no_sentinel_padding :
    built1.Query [[1, 2]] { topk := 2, search_k := -1 } []
        (fun _ _ => 9) (fun _ _ => 7) = Except.ok ([5, 9], [0, 7]) ∧
    built1.Query [[1, 2]] { topk := 2, search_k := -1 } []
        (fun _ _ => 11) (fun _ _ => 13) = Except.ok ([5, 11], [0, 13]) :=
  ⟨rfl, rfl⟩

/-- Claim C8. For an object holding an index, with the size cache still at
the -1 sentinel, `IndexSize` returns dim x count x 4 (4 = sizeof(float)),
stores that value in `index_size_`, and a subsequent call returns the very
same result with the state unchanged — the cached value is served without
recomputation. -/
theorem c8_indexsize_formula_and_cache (s : IndexAnnoy) (a : AnnoyIndex)
    (hBuilt : s.index_ = some a) (hFresh : s.index_size_ = -1) :
    (s.IndexSize).1 = Except.ok ((a.dim : Int) * (a.items.length : Int) * 4) ∧
    (s.IndexSize).2.index_size_ = (a.dim : Int) * (a.items.length : Int) * 4 ∧
    (s.IndexSize).2.IndexSize = ((s.IndexSize).1, (s.IndexSize).2) := by
  have h0 : (0 : Int) ≤ (a.dim : Int) * (a.items.length : Int) * 4 := by positivity
  have hNe : ¬ ((a.dim : Int) * (a.items.length : Int) * 4 = -1) := by
    intro h
    rw [h] at h0
    norm_num at h0
  unfold IndexAnnoy.IndexSize
  simp [hBuilt, hFresh, hNe]

/-- Witness for claim C8, at `built1` (dim 2, one item: 2 x 1 x 4 bytes). -/
theorem c8_witness :
    (built1.IndexSize).1
        = Except.ok ((built1Core.dim : Int) * (built1Core.items.length : Int) * 4) ∧
    (built1.IndexSize).2.index_size_
        = (built1Core.dim : Int) * (built1Core.items.length : Int) * 4 ∧
    (built1.IndexSize).2.IndexSize = ((built1.IndexSize).1, (built1.IndexSize).2) :=
  c8_indexsize_formula_and_cache built1 built1Core rfl rfl

/-- Claim C9. On an Empty object whose size cache still holds the -1
sentinel, `IndexSize` reaches the `Dim()` call, which throws
NotInitialized; no size is reported and nothing is cached. -/
theorem c9_empty_indexsize_throws (s : IndexAnnoy)
    (hEmpty : s.index_ = none) (hFresh : s.index_size_ = -1) :
    s.IndexSize = (Except.error KErr.notInitialized, s) := by
  unfold IndexAnnoy.IndexSize
  simp [hEmpty, hFresh]

/-- Witness for claim C9, at the fresh object. -/
theorem c9_witness :
    IndexAnnoy.fresh.IndexSize = (Except.error KErr.notInitialized, IndexAnnoy.fresh) :=
  c9_empty_indexsize_throws IndexAnnoy.fresh rfl rfl

end Knowhere

namespace MilvusServer

/-- Claim C10. `DescribeTableRequest::OnExecute` is atomic in its output:
whenever the returned status is not the success code — invalid collection
name, database failure (including the fault-injected one), collection not
found, partition collection with nonempty owner table, or the caught
fault-injected exception — the `schema_` output argument is returned
unchanged; on the success path all four of its fields are assigned from the
described table schema. The embedding is a total function: every modelled
exception is caught and converted to a status, none propagates. -/
theorem c10_onexecute_atomic (env : Env) (schema : CollectionSchema) :
    ((OnExecute env schema).1.code ≠ StatusCode.SERVER_SUCCESS →
      (OnExecute env schema).2 = schema) ∧
    ((OnExecute env schema).1.code = StatusCode.SERVER_SUCCESS →
      (OnExecute env schema).2 =
        { collection_name_ := env.dbSchema.collection_id_,
          dimension_ := (env.dbSchema.dimension_ : Int),
          index_file_size_ := env.dbSchema.index_file_size_,
          metric_type_ := env.dbSchema.metric_type_ }) := by
  unfold OnExecute
  split_ifs <;> simp_all [Status.isOk] <;> split_ifs <;> simp_all

/-- Witness for claim C10: a run that fails via the fault-injected
exception leaves the schema untouched, and a clean run fills in the four
fields. -/
theorem c10_witness :
    (OnExecute
        { validateStatus := { code := StatusCode.SERVER_SUCCESS },
          dbStatus := { code := StatusCode.SERVER_SUCCESS },
          dbSchema := { collection_id_ := "c", dimension_ := 128,
                        index_file_size_ := 1024, metric_type_ := 1,
                        owner_table_ := "" },
          fiuDescribeFail := false, fiuThrowStdException := true }
        { collection_name_ := "x", dimension_ := 9, index_file_size_ := 9,
          metric_type_ := 9 }).2
      = { collection_name_ := "x", dimension_ := 9, index_file_size_ := 9,
          metric_type_ := 9 } ∧
    (OnExecute
        { validateStatus := { code := StatusCode.SERVER_SUCCESS },
          dbStatus := { code := StatusCode.SERVER_SUCCESS },
          dbSchema := { collection_id_ := "c", dimension_ := 128,
                        index_file_size_ := 1024, metric_type_ := 1,
                        owner_table_ := "" },
          fiuDescribeFail := false, fiuThrowStdException := false }
        { collection_name_ := "x", dimension_ := 9, index_file_size_ := 9,
          metric_type_ := 9 }).2
      = { collection_name_ := "c", dimension_ := 128, index_file_size_ := 1024,
          metric_type_ := 1 } :=
  ⟨(c10_onexecute_atomic
      { validateStatus := { code := StatusCode.SERVER_SUCCESS },
        dbStatus := { code := StatusCode.SERVER_SUCCESS },
        dbSchema := { collection_id_ := "c", dimension_ := 128,
                      index_file_size_ := 1024, metric_type_ := 1,
                      owner_table_ := "" },
        fiuDescribeFail := false, fiuThrowStdException := true }
      { collection_name_ := "x", dimension_ := 9, index_file_size_ := 9,
        metric_type_ := 9 }).1 (by decide),
   (c10_onexecute_atomic
      { validateStatus := { code := StatusCode.SERVER_SUCCESS },
        dbStatus := { code := StatusCode.SERVER_SUCCESS },
        dbSchema := { collection_id_ := "c", dimension_ := 128,
                      index_file_size_ := 1024, metric_type_ := 1,
                      owner_table_ := "" },
        fiuDescribeFail := false, fiuThrowStdException := false }
      { collection_name_ := "x", dimension_ := 9, index_file_size_ := 9,
        metric_type_ := 9 }).2 (by decide)⟩

end MilvusServer
